import Mathlib

/-!
Verification of the chitin-agent core against its specification.

This file shallowly embeds the parts of the repository the claims are
about:

* chitin_agent/enterprise/audit.py — AuditEvent, AuditBatcher
  (add_event, _push_batch, flush);
* chitin_agent/mcp/transport.py — the response handling of
  StdioTransport.send_request;
* chitin_agent/mcp/client.py — MCPServer (connect, call_tool,
  _reconnect, disconnect) and MCPClient.call_tool;
* chitin_agent/executor.py — ToolExecutor (_execute_tool_call,
  process_llm_response) together with chitin_agent/llm/types.py.

Python awaits on external collaborators (the decision engine, the
escalation handler, the MCP transport, the audit sink) are modelled as
explicit oracle values supplied in an environment record; exceptions are
modelled with Except or an explicit error field; mutation is modelled by
explicit state passing.  Side effects that the claims quantify over
(tool-server calls, record_result calls, audit emissions, sleeps) are
collected in an explicit effect trace.
-/

/-! ## Audit batching (chitin_agent/enterprise/audit.py) -/

/-- AuditEvent from audit.py, reduced to the fields the batcher logic
reads; decision / metadata / timestamp are carried opaquely by the
content field for the purposes of queue ordering. -/
structure AuditEventM where
  event_id : Nat
  event_type : String
  content : String
deriving DecidableEq, Repr

/-- Mutable state of AuditBatcher: the deque of queued events (head of
the list = left end / front of the deque), the thresholds, and the
timestamp of the last successful push.  Times are modelled as Nat. -/
structure BatcherState where
  batch_size : Nat
  batch_interval : Nat
  queue : List AuditEventM
  last_push : Nat
deriving DecidableEq, Repr

/-- Result of one batcher operation: the post state, whether the
operation re-raised a sink failure, and the batches attempted against
the sink, in attempt order. -/
structure AuditStep where
  state : BatcherState
  raised : Bool
  pushes : List (List AuditEventM)
deriving DecidableEq, Repr

/-- The extraction loop of _push_batch:
events = [queue.popleft() for _ in range(k)].  Returns the removed
events in removal order and the remaining queue. -/
def popleftN {α : Type} : Nat → List α → List α × List α
  | 0, q => ([], q)
  | _ + 1, [] => ([], [])
  | n + 1, e :: q =>
    let p := popleftN n q
    (e :: p.1, p.2)

/-- The requeue loop of _push_batch:
for event in reversed(events): queue.appendleft(event). -/
def appendleftAll {α : Type} (events q : List α) : List α :=
  events.reverse.foldl (fun acc e => e :: acc) q

namespace AuditBatcher

/-- AuditBatcher._push_batch.  The sink call
client.push_audit_events is the oracle sinkOk; now is the value of
datetime.now() observed on success. -/
def push_batch (sinkOk : Bool) (now : Nat) (s : BatcherState) : AuditStep :=
  if s.queue.isEmpty then ⟨s, false, []⟩
  else
    let k := min s.queue.length s.batch_size
    let p := popleftN k s.queue
    if sinkOk then
      ⟨{ s with queue := p.2, last_push := now }, false, [p.1]⟩
    else
      ⟨{ s with queue := appendleftAll p.1 p.2 }, true, [p.1]⟩

/-- AuditBatcher.add_event: append, then push when the size or the
interval trigger fires.  now is the value of datetime.now() during this
call. -/
def add_event (sinkOk : Bool) (now : Nat) (e : AuditEventM)
    (s : BatcherState) : AuditStep :=
  let s1 : BatcherState := { s with queue := s.queue ++ [e] }
  if s1.queue.length ≥ s1.batch_size ∨ now - s1.last_push ≥ s1.batch_interval then
    push_batch sinkOk now s1
  else
    ⟨s1, false, []⟩

/-- A sequence of separate add_event calls, threading the state and
concatenating the push attempts. -/
def add_events (sinkOk : Bool) (now : Nat) :
    List AuditEventM → BatcherState → AuditStep
  | [], s => ⟨s, false, []⟩
  | e :: es, s =>
    let st := add_event sinkOk now e s
    let st2 := add_events sinkOk now es st.state
    ⟨st2.state, st.raised || st2.raised, st.pushes ++ st2.pushes⟩

/-- AuditBatcher.flush: while queue: _push_batch().  The while loop is
run on explicit fuel; with batch_size ≥ 1 a fuel of queue.length
suffices since every successful push removes at least one event. -/
def flushGo (sinkOk : Bool) (now : Nat) :
    Nat → BatcherState → AuditStep
  | 0, s => ⟨s, false, []⟩
  | fuel + 1, s =>
    if s.queue.isEmpty then ⟨s, false, []⟩
    else
      let st := push_batch sinkOk now s
      if st.raised then st
      else
        let st2 := flushGo sinkOk now fuel st.state
        ⟨st2.state, st2.raised, st.pushes ++ st2.pushes⟩

/-- AuditBatcher.flush with the canonical fuel. -/
def flush (sinkOk : Bool) (now : Nat) (s : BatcherState) : AuditStep :=
  flushGo sinkOk now s.queue.length s

end AuditBatcher

/-! ## LLM response types (chitin_agent/llm/types.py) -/

/-- ContentBlock from llm/types.py.  Argument maps are carried as
association lists of strings (their JSON serialisation is opaque to the
control flow being verified). -/
structure ContentBlock where
  type : String
  text : String
  tool_call_id : String
  tool_name : String
  arguments : List (String × String)
deriving DecidableEq, Repr

/-- LLMResponse from llm/types.py. -/
structure LLMResponse where
  content : List ContentBlock
  stop_reason : String
deriving DecidableEq, Repr

/-- LLMResponse.text_content. -/
def LLMResponse.text_content (r : LLMResponse) : String :=
  String.join ((r.content.filter (fun b => b.type == "text")).map
    (fun b => b.text))

/-- LLMResponse.has_tool_calls. -/
def LLMResponse.has_tool_calls (r : LLMResponse) : Bool :=
  r.content.any (fun b => b.type == "tool_use")

/-- LLMResponse.tool_calls. -/
def LLMResponse.tool_calls (r : LLMResponse) : List ContentBlock :=
  r.content.filter (fun b => b.type == "tool_use")

/-! ## Tool executor (chitin_agent/executor.py) -/

/-- A result record produced by the executor (the dicts built in
executor.py with keys type / tool_call_id / content). -/
structure ToolResult where
  type : String
  tool_call_id : String
  content : String
deriving DecidableEq, Repr

/-- The decision object returned by engine.propose (see the comment at
executor.py line 84: allowed, outcome, event_id, reason; the unused
rule_id field is omitted).  event_id is an int; Python truthiness of
event_id is event_id ≠ 0. -/
structure Decision where
  outcome : String
  reason : String
  event_id : Nat
  allowed : Bool
deriving DecidableEq, Repr

/-- The dict returned by MCPClient.call_tool as read by the executor:
result.get("content", "") and result.get("exitCode", 0) with the
defaults already applied. -/
structure CallResultM where
  content : String
  exitCode : Nat
deriving DecidableEq, Repr

/-- Observable side effects of one _execute_tool_call run, in program
order. -/
inductive ExecEffect where
  | effPropose (tool : String)
  | effExplain (eventId : Nat)
  | effEscalate (tool : String)
  | effIngest (content : String)
  | effCallTool (tool : String)
  | effRecordResult (eventId : Nat) (exitCode : Nat)
  | effAuditAdd
deriving DecidableEq, Repr

/-- Oracles for every awaited / external call made by
ToolExecutor._execute_tool_call.  An Except.error models the Python
call raising an exception carrying that message. -/
structure EngineEnv where
  propose : ContentBlock → Except String Decision
  explain : Nat → Except String String
  escalationHandle : ContentBlock → String → Option String → Except String Bool
  ingest : String → Except String Nat
  recordResult : Nat → String → Nat → Except String Nat
  mcpCallTool : String → List (String × String) → Except String CallResultM
  auditAdd : Except String Unit
  hasAudit : Bool

namespace ToolExecutor

/-- The except-branch of the try block in _execute_tool_call
(executor.py lines 146-158): record the error with exit code 1 when
event_id is truthy, then return a tool_error record; an exception from
record_result itself escapes. -/
def exceptBranch (env : EngineEnv) (tc : ContentBlock) (eventId : Nat)
    (e : String) (effs : List ExecEffect) :
    Except String ToolResult × List ExecEffect :=
  if eventId ≠ 0 then
    match env.recordResult eventId e 1 with
    | .error e2 => (.error e2, effs ++ [.effRecordResult eventId 1])
    | .ok _ =>
      (.ok ⟨"tool_error", tc.tool_call_id, "Tool execution failed: " ++ e⟩,
        effs ++ [.effRecordResult eventId 1])
  else
    (.ok ⟨"tool_error", tc.tool_call_id, "Tool execution failed: " ++ e⟩, effs)

/-- The try block of _execute_tool_call (executor.py lines 116-158):
call the tool, record the result, emit the audit event when a batcher
is configured; any exception inside the block is handled by
exceptBranch. -/
def tryPhase (env : EngineEnv) (tc : ContentBlock) (d : Decision)
    (effs : List ExecEffect) : Except String ToolResult × List ExecEffect :=
  match env.mcpCallTool tc.tool_name tc.arguments with
  | .error e => exceptBranch env tc d.event_id e
      (effs ++ [.effCallTool tc.tool_name])
  | .ok r =>
    let effs1 := effs ++ [ExecEffect.effCallTool tc.tool_name]
    match env.recordResult d.event_id r.content r.exitCode with
    | .error e => exceptBranch env tc d.event_id e
        (effs1 ++ [.effRecordResult d.event_id r.exitCode])
    | .ok _ =>
      let effs2 := effs1 ++ [ExecEffect.effRecordResult d.event_id r.exitCode]
      if env.hasAudit then
        match env.auditAdd with
        | .error e => exceptBranch env tc d.event_id e (effs2 ++ [.effAuditAdd])
        | .ok _ =>
          (.ok ⟨"tool_success", tc.tool_call_id, r.content⟩,
            effs2 ++ [.effAuditAdd])
      else
        (.ok ⟨"tool_success", tc.tool_call_id, r.content⟩, effs2)

/-- The decide / ingest part of the escalate branch (executor.py lines
100-114): escalation.handle, then on approval the ingest of a
human-approval event, then the try block. -/
def escalateDecide (env : EngineEnv) (tc : ContentBlock) (d : Decision)
    (tr : Option String) (effs : List ExecEffect) :
    Except String ToolResult × List ExecEffect :=
  match env.escalationHandle tc d.reason tr with
  | .error e => (.error e, effs ++ [.effEscalate tc.tool_name])
  | .ok false =>
    (.ok ⟨"tool_error", tc.tool_call_id,
        "Escalation denied by user: " ++ d.reason⟩,
      effs ++ [.effEscalate tc.tool_name])
  | .ok true =>
    match env.ingest "Human approved escalation" with
    | .error e => (.error e, effs ++ [.effEscalate tc.tool_name])
    | .ok _ => tryPhase env tc d
        (effs ++ [.effEscalate tc.tool_name,
          .effIngest "Human approved escalation"])

/-- The escalate branch of _execute_tool_call (executor.py lines
97-114): trace = explain(event_id) if event_id else None (an exception
from explain escapes), then the decide / ingest step above. -/
def escalateStep (env : EngineEnv) (tc : ContentBlock) (d : Decision)
    (effs : List ExecEffect) : Except String ToolResult × List ExecEffect :=
  if d.event_id ≠ 0 then
    match env.explain d.event_id with
    | .error e => (.error e, effs ++ [.effExplain d.event_id])
    | .ok t => escalateDecide env tc d (some t)
        (effs ++ [.effExplain d.event_id])
  else
    escalateDecide env tc d none effs

/-- ToolExecutor._execute_tool_call: propose, branch on the decision
outcome, optionally escalate, then execute.  The Except.error case
models the coroutine raising (which asyncio.gather with
return_exceptions=True later converts). -/
def execute_tool_call (env : EngineEnv) (tc : ContentBlock) :
    Except String ToolResult × List ExecEffect :=
  match env.propose tc with
  | .error e => (.error e, [.effPropose tc.tool_name])
  | .ok d =>
    let effs := [ExecEffect.effPropose tc.tool_name]
    if d.outcome = "deny" ∨ d.allowed = false then
      (.ok ⟨"tool_error", tc.tool_call_id, "Policy denied: " ++ d.reason⟩,
        effs)
    else if d.outcome = "escalate" then
      escalateStep env tc d effs
    else
      tryPhase env tc d effs

/-- The per-index conversion of executor.py lines 59-70: an exception
from task i becomes a tool_error record carrying the tool_call_id of
proposal i; a normal result is passed through. -/
def convertResult (tc : ContentBlock) :
    Except String ToolResult → ToolResult
  | .error e =>
    ⟨"tool_error", tc.tool_call_id, "Tool execution failed: " ++ e⟩
  | .ok r => r

/-- The final result record that process_llm_response produces for the
proposal at index i (task outcome plus the conversion above).  For an
index out of range the value is irrelevant (never written by a valid
completion). -/
def taskOutcome (env : EngineEnv) (tcs : List ContentBlock) (i : Nat) :
    ToolResult :=
  match tcs[i]? with
  | some tc => convertResult tc (execute_tool_call env tc).1
  | none => ⟨"tool_error", "", ""⟩

/-- The semantics of asyncio.gather for this call site: each task is
slotted by its index; order is the order in which the concurrent tasks
complete (an index outside the range is a no-op).  The result list is
read off by index after all completions. -/
def gatherSlots {β : Type} (n : Nat) (outc : Nat → β) (order : List Nat) :
    List (Option β) :=
  order.foldl (fun acc i => acc.set i (some (outc i))) (List.replicate n none)

/-- ToolExecutor.process_llm_response: ingest the text (value-level:
the text is returned), return early when there are no tool calls, else
fan out one task per proposal and assemble the converted results by
index.  order is the completion schedule of the concurrent tasks. -/
def process_llm_response (env : EngineEnv) (order : List Nat)
    (resp : LLMResponse) : String × List (Option ToolResult) :=
  if resp.has_tool_calls then
    (resp.text_content,
      gatherSlots resp.tool_calls.length (taskOutcome env resp.tool_calls) order)
  else
    (resp.text_content, [])

end ToolExecutor

/-! ## MCP transport (chitin_agent/mcp/transport.py) -/

/-- Python exception classes relevant to the MCP layer:
ConnectionError, RuntimeError, ValueError (the class used for routing
misses), and a catch-all for any other class. -/
inductive PyErr where
  | connectionError (msg : String)
  | runtimeError (msg : String)
  | valueError (msg : String)
  | otherError (msg : String)
deriving DecidableEq, Repr

/-- The exception filter of the except clause in MCPServer.call_tool:
except (ConnectionError, RuntimeError). -/
def caughtByCallToolRetry : PyErr → Bool
  | .connectionError _ => true
  | .runtimeError _ => true
  | .valueError _ => false
  | .otherError _ => false

/-- The response line read by StdioTransport.send_request: the stream
was closed (empty read), a well-formed JSON response carrying an error
field, or a well-formed response carrying a result payload. -/
inductive StdioLine where
  | empty
  | errLine (msg : String)
  | resultLine (payload : String)
deriving DecidableEq, Repr

/-- The response handling of StdioTransport.send_request (transport.py
lines 74-81): an empty read raises RuntimeError("No response from MCP
server"); a response with an error field raises RuntimeError("MCP
error: ..."); otherwise the result payload is returned. -/
def stdio_send_request (line : StdioLine) : Except PyErr String :=
  match line with
  | .empty => .error (.runtimeError "No response from MCP server")
  | .errLine m => .error (.runtimeError ("MCP error: " ++ m))
  | .resultLine p => .ok p

/-! ## MCP server session (chitin_agent/mcp/client.py) -/

/-- MCPTool from client.py. -/
structure MCPToolM where
  name : String
  description : String
  inputSchema : String
deriving DecidableEq, Repr

/-- Mutable state of MCPServer: the discovered tool dict (an
insertion-ordered association list, as a Python dict), the connected
flag, and the reconnect counters. -/
structure ServerState where
  tools : List (String × MCPToolM)
  connected : Bool
  reconnect_attempts : Nat
  max_reconnect_attempts : Nat
deriving DecidableEq, Repr

/-- MCPServer.__init__: empty tool dict, disconnected, zero attempts,
maximum of 3. -/
def initServer : ServerState :=
  { tools := [], connected := false, reconnect_attempts := 0,
    max_reconnect_attempts := 3 }

/-- Python dict assignment self.tools[name] = tool: overwrite in place
when the key exists, else append at the end. -/
def dictInsert (k : String) (v : MCPToolM) :
    List (String × MCPToolM) → List (String × MCPToolM)
  | [] => [(k, v)]
  | (k2, v2) :: rest =>
    if k2 = k then (k, v) :: rest else (k2, v2) :: dictInsert k v rest

/-- Python membership test name in self.tools. -/
def dictContains (k : String) (m : List (String × MCPToolM)) : Bool :=
  m.any (fun p => p.1 == k)

/-- Observable MCP-layer effects: transport connect / disconnect, a
request sent with the given method, and a timed sleep. -/
inductive MCPEffect where
  | transportConnect
  | sendReq (method : String)
  | transportDisconnect
  | sleep (seconds : Nat)
deriving DecidableEq, Repr

/-- Outcome of a state-mutating session operation: the post state, the
exception it raised (none on normal return), and the effect trace. -/
structure SessionOp where
  state : ServerState
  err : Option PyErr
  trace : List MCPEffect
deriving Repr

/-- Oracles for one run of MCPServer.connect: the transport.connect
outcome, the initialize response, and the tools/list response (the
discovered catalog). -/
structure ConnectEnv where
  connectOk : Except PyErr Unit
  initResult : Except PyErr Unit
  toolsList : Except PyErr (List MCPToolM)

namespace MCPServer

/-- MCPServer.connect (client.py lines 35-68): transport connect,
initialize handshake, tools/list discovery; discovered descriptors are
inserted into the existing dict (the dict is not cleared first); on
success connected := true and reconnect_attempts := 0; on any failure
connected := false and the exception is re-raised. -/
def connect (env : ConnectEnv) (s : ServerState) : SessionOp :=
  match env.connectOk with
  | .error e =>
    ⟨{ s with connected := false }, some e, [.transportConnect]⟩
  | .ok _ =>
    match env.initResult with
    | .error e =>
      ⟨{ s with connected := false }, some e,
        [.transportConnect, .sendReq "initialize"]⟩
    | .ok _ =>
      match env.toolsList with
      | .error e =>
        ⟨{ s with connected := false }, some e,
          [.transportConnect, .sendReq "initialize", .sendReq "tools/list"]⟩
      | .ok catalog =>
        ⟨{ s with
            tools := catalog.foldl (fun m t => dictInsert t.name t m) s.tools,
            connected := true,
            reconnect_attempts := 0 },
          none,
          [.transportConnect, .sendReq "initialize", .sendReq "tools/list"]⟩

/-- MCPServer.disconnect (client.py lines 110-116): terminate the
transport and clear the connected flag; an exception from the transport
is swallowed (logged) and leaves the state untouched. -/
def disconnect (disconnectOk : Except PyErr Unit) (s : ServerState) :
    SessionOp :=
  match disconnectOk with
  | .ok _ => ⟨{ s with connected := false }, none, [.transportDisconnect]⟩
  | .error _ => ⟨s, none, [.transportDisconnect]⟩

/-- Oracles for one run of MCPServer._reconnect: the transport
disconnect outcome and the environment of the fresh connect. -/
structure ReconnectEnv where
  disconnectOk : Except PyErr Unit
  connectEnv : ConnectEnv

/-- MCPServer._reconnect (client.py lines 92-108): raise RuntimeError
when the attempt counter has reached the maximum; otherwise increment
the counter, disconnect the stale transport ignoring errors, sleep a
fixed 1 second, and run connect again. -/
def reconnect (env : ReconnectEnv) (s : ServerState) : SessionOp :=
  if s.reconnect_attempts ≥ s.max_reconnect_attempts then
    ⟨s, some (.runtimeError "Failed to reconnect after max attempts"), []⟩
  else
    ⟨(connect env.connectEnv (disconnect env.disconnectOk
        { s with reconnect_attempts := s.reconnect_attempts + 1 }).state).state,
      (connect env.connectEnv (disconnect env.disconnectOk
        { s with reconnect_attempts := s.reconnect_attempts + 1 }).state).err,
      (disconnect env.disconnectOk
          { s with reconnect_attempts := s.reconnect_attempts + 1 }).trace ++
        [.sleep 1] ++
        (connect env.connectEnv (disconnect env.disconnectOk
          { s with reconnect_attempts := s.reconnect_attempts + 1 }).state).trace⟩

/-- Oracles for one run of MCPServer.call_tool: the outcome of the
first tools/call send, the reconnect environment, and the outcome of
the retried send. -/
structure CallEnv where
  firstSend : Except PyErr String
  reconnectEnv : ReconnectEnv
  retrySend : Except PyErr String

/-- Outcome of MCPServer.call_tool: post state, the returned result or
the raised exception, and the effect trace. -/
structure CallOp where
  state : ServerState
  result : Except PyErr String
  trace : List MCPEffect
deriving Repr

/-- MCPServer.call_tool (client.py lines 70-90): ValueError when the
name is missing from the tool dict; otherwise send tools/call; on
ConnectionError or RuntimeError clear the connected flag, run
_reconnect, and retry the send once without re-checking the tool dict;
any other exception propagates. -/
def call_tool (env : CallEnv) (name : String) (s : ServerState) : CallOp :=
  if ¬ dictContains name s.tools then
    ⟨s, .error (.valueError ("Tool " ++ name ++ " not found on server")), []⟩
  else
    match env.firstSend with
    | .ok r => ⟨s, .ok r, [.sendReq "tools/call"]⟩
    | .error e =>
      if caughtByCallToolRetry e then
        match (reconnect env.reconnectEnv { s with connected := false }).err with
        | some e2 =>
          ⟨(reconnect env.reconnectEnv { s with connected := false }).state,
            .error e2,
            [.sendReq "tools/call"] ++
              (reconnect env.reconnectEnv { s with connected := false }).trace⟩
        | none =>
          ⟨(reconnect env.reconnectEnv { s with connected := false }).state,
            env.retrySend,
            [.sendReq "tools/call"] ++
              (reconnect env.reconnectEnv { s with connected := false }).trace ++
              [.sendReq "tools/call"]⟩
      else
        ⟨s, .error e, [.sendReq "tools/call"]⟩

end MCPServer

/-! ## MCP client routing (chitin_agent/mcp/client.py, MCPClient) -/

/-- The view of one MCPServer that MCPClient.call_tool reads: the names
in its tool dict, its connected flag, and the outcome of
server.call_tool when invoked (as an oracle, since that call is an
await on the session). -/
structure ServerEntry where
  sname : String
  toolNames : List String
  connected : Bool
  callResult : Except PyErr String

/-- Errors the §4.3 taxonomy calls transport-level. -/
def isTransportLevel : PyErr → Bool
  | .connectionError _ => true
  | _ => false

/-- MCPClient.call_tool (client.py lines 168-178): first-match over the
servers in dict order; a candidate must contain the name and be
connected; any exception from the chosen session makes the loop
continue with the next server; when the loop ends, ValueError("Tool ...
not found on any connected server"). -/
def MCPClient.call_tool (name : String) :
    List ServerEntry → Except PyErr String
  | [] => .error (.valueError ("Tool " ++ name ++ " not found on any connected server"))
  | s :: rest =>
    if s.toolNames.contains name && s.connected then
      match s.callResult with
      | .ok r => .ok r
      | .error _ => MCPClient.call_tool name rest
    else
      MCPClient.call_tool name rest

/-! ## Concrete instances used to evaluate the theorems below -/

/-- A tool-use proposal whose execution succeeds. -/
def wTc1 : ContentBlock := ⟨"tool_use", "", "c1", "t1", [("k", "v")]⟩

/-- A tool-use proposal whose task raises. -/
def wTc2 : ContentBlock := ⟨"tool_use", "", "c2", "t2", []⟩

/-- A model response with one text block and two tool-call proposals. -/
def wResp : LLMResponse :=
  ⟨[⟨"text", "hello", "", "", []⟩, wTc1, wTc2], "end_turn"⟩

/-- An environment in which proposals for tool t1 are allowed and
succeed while every other proposal makes the engine raise. -/
def wEnv : EngineEnv where
  propose := fun tc =>
    if tc.tool_name = "t1" then .ok ⟨"allow", "", 5, true⟩
    else .error "engine down"
  explain := fun _ => .ok "trace"
  escalationHandle := fun _ _ _ => .ok true
  ingest := fun _ => .ok 9
  recordResult := fun _ _ _ => .ok 10
  mcpCallTool := fun n _ => if n = "t1" then .ok ⟨"r1", 0⟩ else .error "down"
  auditAdd := .ok ()
  hasAudit := false

/-- A proposal that the policy denies. -/
def denyTc : ContentBlock := ⟨"tool_use", "", "cd", "rmtool", []⟩

/-- An environment whose decision authority denies every proposal. -/
def denyEnv : EngineEnv :=
  { wEnv with propose := fun _ => .ok ⟨"deny", "dangerous", 7, false⟩ }

/-- A proposal that the policy escalates. -/
def c8Tc : ContentBlock := ⟨"tool_use", "", "ce", "esctool", []⟩

/-- An environment that escalates every proposal and whose explain call
raises. -/
def c8Env : EngineEnv :=
  { wEnv with
    propose := fun _ => .ok ⟨"escalate", "needs human", 1, true⟩,
    explain := fun _ => .error "explain down" }

/-- Concrete audit events. -/
def auditE1 : AuditEventM := ⟨1, "tool_call", "e1"⟩

def auditE2 : AuditEventM := ⟨2, "tool_call", "e2"⟩

def auditE3 : AuditEventM := ⟨3, "tool_call", "e3"⟩

/-- A batcher state with three queued events and batch size two. -/
def c3State : BatcherState := ⟨2, 60, [auditE1, auditE2, auditE3], 0⟩

/-- A fresh batcher state with batch size two and a long interval. -/
def c4State : BatcherState := ⟨2, 100, [], 0⟩

/-- Catalog, environments and states for the reconnect claims. -/
def c5Tool : MCPToolM := ⟨"t", "d", "s"⟩

def c5ConnectEnv : ConnectEnv := ⟨.ok (), .ok (), .ok [c5Tool]⟩

def c5ReconnectEnv : MCPServer.ReconnectEnv := ⟨.ok (), c5ConnectEnv⟩

/-- A session that has exhausted its reconnect budget. -/
def c5Exhausted : ServerState := ⟨[("t", c5Tool)], false, 3, 3⟩

/-- A session with reconnect budget left. -/
def c5Fresh : ServerState := ⟨[("t", c5Tool)], false, 1, 3⟩

/-- A connected session exposing tool t, for the retry claims. -/
def c6Server : ServerState := ⟨[("t", c5Tool)], true, 0, 3⟩

/-- A call environment whose first send reads a well-formed response
carrying an application-level error and whose reconnect and retry
succeed. -/
def c6CallEnv : MCPServer.CallEnv :=
  ⟨stdio_send_request (.errLine "app failure"),
    ⟨.ok (), ⟨.ok (), .ok (), .ok [c5Tool]⟩⟩, .ok "retried"⟩

/-- The session state after a successful connect from the initial
state. -/
def c7S1 : ServerState :=
  (MCPServer.connect ⟨.ok (), .ok (), .ok [c5Tool]⟩ initServer).state

/-- The session state after a subsequent successful disconnect. -/
def c7S2 : ServerState := (MCPServer.disconnect (.ok ()) c7S1).state

/-- Two servers both exposing tool t; the first fails with a
non-transport error, the second succeeds. -/
def c9ServerA : ServerEntry := ⟨"a", ["t"], true, .error (.valueError "parse failure")⟩

def c9ServerB : ServerEntry := ⟨"b", ["t"], true, .ok "r2"⟩

/-- A tool that the fresh catalog of the reconnected server lacks. -/
def c10Other : MCPToolM := ⟨"u", "d", "s"⟩

/-- A connected session exposing tool t with reconnect budget. -/
def c10Server : ServerState := ⟨[("t", c5Tool)], true, 0, 3⟩

/-- A call environment whose first send loses the connection and whose
reconnect discovers a catalog without tool t; the retry succeeds. -/
def c10CallEnv : MCPServer.CallEnv :=
  ⟨.error (.connectionError "pipe closed"),
    ⟨.ok (), ⟨.ok (), .ok (), .ok [c10Other]⟩⟩, .ok "retried"⟩

/-! ## Helper lemmas -/

theorem popleftN_eq_take_drop {α : Type} (n : Nat) (q : List α) :
    popleftN n q = (q.take n, q.drop n) := by
  induction n generalizing q with
  | zero => simp [popleftN]
  | succ n ih =>
    cases q with
    | nil => simp [popleftN]
    | cons e q => simp [popleftN, ih]

theorem foldl_cons_eq_reverse_append {α : Type} (l q : List α) :
    l.foldl (fun acc e => e :: acc) q = l.reverse ++ q := by
  induction l generalizing q with
  | nil => simp
  | cons e l ih => simp [List.foldl_cons, ih]

theorem appendleftAll_eq_append {α : Type} (events q : List α) :
    appendleftAll events q = events ++ q := by
  simp [appendleftAll, foldl_cons_eq_reverse_append]

theorem foldl_set_length {β : Type} (outc : Nat → β) (order : List Nat)
    (acc : List (Option β)) :
    (order.foldl (fun a i => a.set i (some (outc i))) acc).length = acc.length := by
  induction order generalizing acc with
  | nil => rfl
  | cons i rest ih => simp [List.foldl_cons, ih]

theorem foldl_set_getElem? {β : Type} (outc : Nat → β) (order : List Nat)
    (acc : List (Option β)) (j : Nat) (hj : j < acc.length) :
    (order.foldl (fun a i => a.set i (some (outc i))) acc)[j]? =
      if j ∈ order then some (some (outc j)) else acc[j]? := by
  induction order generalizing acc with
  | nil => simp
  | cons i rest ih =>
    rw [List.foldl_cons]
    rw [ih (acc.set i (some (outc i))) (by simpa using hj)]
    by_cases hjr : j ∈ rest
    · simp [hjr]
    · by_cases hij : i = j
      · subst hij
        simp [hjr, List.getElem?_set_self, hj]
      · simp [hjr, List.getElem?_set_ne hij, Ne.symm hij]

theorem gatherSlots_length {β : Type} (n : Nat) (outc : Nat → β)
    (order : List Nat) :
    (ToolExecutor.gatherSlots n outc order).length = n := by
  simp [ToolExecutor.gatherSlots, foldl_set_length]

theorem gatherSlots_getElem? {β : Type} (n : Nat) (outc : Nat → β)
    (order : List Nat) (j : Nat) (hj : j < n) (hmem : j ∈ order) :
    (ToolExecutor.gatherSlots n outc order)[j]? = some (some (outc j)) := by
  rw [ToolExecutor.gatherSlots,
    foldl_set_getElem? outc order (List.replicate n none) j (by simpa using hj)]
  simp [hmem]

theorem tool_calls_nil_of_not_has (r : LLMResponse)
    (h : r.has_tool_calls = false) : r.tool_calls = [] := by
  rw [LLMResponse.tool_calls, List.filter_eq_nil_iff]
  intro b hb
  rw [LLMResponse.has_tool_calls, List.any_eq_false] at h
  exact fun hc => h b hb hc

/-! ## C1 -/

/-- C1: for every model response, every execution environment and every
completion order of the concurrent tasks that completes each task,
process_llm_response returns exactly one result record per tool-call
proposal, slotted at the index of its proposal; a task that raises is
converted into an error record carrying the tool_call_id of its own
proposal, and sibling results are neither removed nor reordered. -/
theorem c1_results_in_proposal_order (env : EngineEnv) (resp : LLMResponse)
    (order : List Nat)
    (hcov : ∀ j, j < resp.tool_calls.length → j ∈ order) :
    (ToolExecutor.process_llm_response env order resp).2.length =
      resp.tool_calls.length ∧
    (∀ (j : Nat) (tc : ContentBlock), resp.tool_calls[j]? = some tc →
      (ToolExecutor.process_llm_response env order resp).2[j]? =
        some (some (ToolExecutor.convertResult tc
          (ToolExecutor.execute_tool_call env tc).1))) ∧
    (∀ (j : Nat) (tc : ContentBlock) (e : String),
      resp.tool_calls[j]? = some tc →
      (ToolExecutor.execute_tool_call env tc).1 = .error e →
      (ToolExecutor.process_llm_response env order resp).2[j]? =
        some (some (ToolResult.mk "tool_error" tc.tool_call_id
          ("Tool execution failed: " ++ e)))) := by
  by_cases hb : resp.has_tool_calls
  · have hslot : ∀ (j : Nat) (tc : ContentBlock), resp.tool_calls[j]? = some tc →
        (ToolExecutor.process_llm_response env order resp).2[j]? =
          some (some (ToolExecutor.convertResult tc
            (ToolExecutor.execute_tool_call env tc).1)) := by
      intro j tc hj
      have hlt : j < resp.tool_calls.length := by
        rw [List.getElem?_eq_some] at hj
        exact hj.1
      rw [ToolExecutor.process_llm_response, if_pos hb]
      rw [gatherSlots_getElem? _ _ order j hlt (hcov j hlt)]
      rw [ToolExecutor.taskOutcome, hj]
    refine ⟨?_, hslot, ?_⟩
    · rw [ToolExecutor.process_llm_response, if_pos hb]
      exact gatherSlots_length _ _ _
    · intro j tc e hj he
      rw [hslot j tc hj, he, ToolExecutor.convertResult]
  · have hnil : resp.tool_calls = [] :=
      tool_calls_nil_of_not_has resp (Bool.eq_false_iff.mpr hb)
    refine ⟨?_, ?_, ?_⟩
    · rw [ToolExecutor.process_llm_response, if_neg hb, hnil]
      rfl
    · intro j tc hj
      rw [List.getElem?_eq_some] at hj
      rw [hnil] at hj
      exact absurd hj.1 (by simp)
    · intro j tc e hj _
      rw [List.getElem?_eq_some] at hj
      rw [hnil] at hj
      exact absurd hj.1 (by simp)

/-- C1 witness: the theorem evaluated on a concrete response with two
proposals, one succeeding and one raising, with the tasks completing in
reverse order. -/
theorem c1_witness :
    (ToolExecutor.process_llm_response wEnv [1, 0] wResp).2.length =
      wResp.tool_calls.length ∧
    (∀ (j : Nat) (tc : ContentBlock), wResp.tool_calls[j]? = some tc →
      (ToolExecutor.process_llm_response wEnv [1, 0] wResp).2[j]? =
        some (some (ToolExecutor.convertResult tc
          (ToolExecutor.execute_tool_call wEnv tc).1))) ∧
    (∀ (j : Nat) (tc : ContentBlock) (e : String),
      wResp.tool_calls[j]? = some tc →
      (ToolExecutor.execute_tool_call wEnv tc).1 = .error e →
      (ToolExecutor.process_llm_response wEnv [1, 0] wResp).2[j]? =
        some (some (ToolResult.mk "tool_error" tc.tool_call_id
          ("Tool execution failed: " ++ e)))) :=
  c1_results_in_proposal_order wEnv wResp [1, 0] (by decide)

/-! ## C2 -/

/-- C2: for every proposal whose decision has outcome deny or
allowed = false, the pipeline produces an error result carrying the
denial reason and performs no tool-server call for that proposal: no
call_tool, record_result or audit add_event effect occurs. -/
theorem c2_deny_performs_no_call (env : EngineEnv) (tc : ContentBlock)
    (d : Decision) (hp : env.propose tc = .ok d)
    (hd : d.outcome = "deny" ∨ d.allowed = false) :
    ToolExecutor.execute_tool_call env tc =
      (.ok (ToolResult.mk "tool_error" tc.tool_call_id
        ("Policy denied: " ++ d.reason)), [.effPropose tc.tool_name]) ∧
    (∀ t, ExecEffect.effCallTool t ∉ (ToolExecutor.execute_tool_call env tc).2) ∧
    (∀ i c, ExecEffect.effRecordResult i c ∉
      (ToolExecutor.execute_tool_call env tc).2) ∧
    ExecEffect.effAuditAdd ∉ (ToolExecutor.execute_tool_call env tc).2 := by
  have hrun : ToolExecutor.execute_tool_call env tc =
      (.ok (ToolResult.mk "tool_error" tc.tool_call_id
        ("Policy denied: " ++ d.reason)), [.effPropose tc.tool_name]) := by
    rw [ToolExecutor.execute_tool_call, hp]
    simp [hd]
  refine ⟨hrun, ?_, ?_, ?_⟩
  · intro t ht
    rw [hrun] at ht
    simp at ht
  · intro i c hic
    rw [hrun] at hic
    simp at hic
  · intro ha
    rw [hrun] at ha
    simp at ha

/-- C2 witness: the theorem evaluated on a concrete denied proposal. -/
theorem c2_witness :
    ToolExecutor.execute_tool_call denyEnv denyTc =
      (.ok (ToolResult.mk "tool_error" denyTc.tool_call_id
        ("Policy denied: " ++ (Decision.mk "deny" "dangerous" 7 false).reason)),
        [.effPropose denyTc.tool_name]) ∧
    (∀ t, ExecEffect.effCallTool t ∉
      (ToolExecutor.execute_tool_call denyEnv denyTc).2) ∧
    (∀ i c, ExecEffect.effRecordResult i c ∉
      (ToolExecutor.execute_tool_call denyEnv denyTc).2) ∧
    ExecEffect.effAuditAdd ∉
      (ToolExecutor.execute_tool_call denyEnv denyTc).2 :=
  c2_deny_performs_no_call denyEnv denyTc
    (Decision.mk "deny" "dangerous" 7 false) rfl (Or.inl rfl)

/-! ## C3 -/

theorem push_batch_fail (now : Nat) (s : BatcherState) (h : s.queue ≠ []) :
    AuditBatcher.push_batch false now s =
      ⟨s, true, [s.queue.take (min s.queue.length s.batch_size)]⟩ := by
  rw [AuditBatcher.push_batch, if_neg (by simpa using h)]
  simp [popleftN_eq_take_drop, appendleftAll_eq_append, List.take_append_drop]

theorem push_batch_ok (now : Nat) (s : BatcherState) (h : s.queue ≠ []) :
    AuditBatcher.push_batch true now s =
      ⟨{ s with
          queue := s.queue.drop (min s.queue.length s.batch_size),
          last_push := now }, false,
        [s.queue.take (min s.queue.length s.batch_size)]⟩ := by
  rw [AuditBatcher.push_batch, if_neg (by simpa using h)]
  simp [popleftN_eq_take_drop]

/-- C3: a failed push re-inserts exactly the removed events at the head
of the queue in their original relative order, restoring the whole
queue, and re-raises to the caller of add_event or flush; a successful
push removes those events and updates last_push. -/
theorem c3_failed_push_restores_queue (now : Nat) (e : AuditEventM)
    (s : BatcherState) (h : s.queue ≠ []) :
    ((AuditBatcher.push_batch false now s).state = s ∧
      (AuditBatcher.push_batch false now s).raised = true) ∧
    ((AuditBatcher.push_batch true now s).state =
        { s with
          queue := s.queue.drop (min s.queue.length s.batch_size),
          last_push := now } ∧
      (AuditBatcher.push_batch true now s).raised = false) ∧
    ((AuditBatcher.flush false now s).raised = true ∧
      (AuditBatcher.flush false now s).state = s) ∧
    (s.queue.length + 1 ≥ s.batch_size ∨ now - s.last_push ≥ s.batch_interval →
      (AuditBatcher.add_event false now e s).raised = true ∧
      (AuditBatcher.add_event false now e s).state =
        { s with queue := s.queue ++ [e] }) := by
  have hfail := push_batch_fail now s h
  refine ⟨⟨by rw [hfail], by rw [hfail]⟩, ?_, ?_, ?_⟩
  · have hok := push_batch_ok now s h
    exact ⟨by rw [hok], by rw [hok]⟩
  · have hfuel : s.queue.length = (s.queue.length - 1) + 1 := by
      cases hq : s.queue with
      | nil => exact absurd hq h
      | cons a l => simp
    rw [AuditBatcher.flush, hfuel]
    rw [AuditBatcher.flushGo]
    rw [if_neg (by simpa using h)]
    simp only [hfail]
    exact ⟨rfl, rfl⟩
  · intro htrig
    have hne : s.queue ++ [e] ≠ [] := by simp
    have hfail2 := push_batch_fail now { s with queue := s.queue ++ [e] } hne
    rw [AuditBatcher.add_event]
    rw [if_pos (by simpa using htrig)]
    rw [hfail2]
    exact ⟨rfl, rfl⟩

/-- C3 witness: the theorem evaluated on a batcher with three queued
events and batch size two. -/
theorem c3_witness :
    ((AuditBatcher.push_batch false 10 c3State).state = c3State ∧
      (AuditBatcher.push_batch false 10 c3State).raised = true) ∧
    ((AuditBatcher.push_batch true 10 c3State).state =
        { c3State with
          queue := c3State.queue.drop (min c3State.queue.length c3State.batch_size),
          last_push := 10 } ∧
      (AuditBatcher.push_batch true 10 c3State).raised = false) ∧
    ((AuditBatcher.flush false 10 c3State).raised = true ∧
      (AuditBatcher.flush false 10 c3State).state = c3State) ∧
    (c3State.queue.length + 1 ≥ c3State.batch_size ∨
        10 - c3State.last_push ≥ c3State.batch_interval →
      (AuditBatcher.add_event false 10 auditE1 c3State).raised = true ∧
      (AuditBatcher.add_event false 10 auditE1 c3State).state =
        { c3State with queue := c3State.queue ++ [auditE1] }) :=
  c3_failed_push_restores_queue 10 auditE1 c3State (by decide)

/-! ## C4 -/

theorem push_batch_pushes (sinkOk : Bool) (now : Nat) (s : BatcherState)
    (h : s.queue ≠ []) :
    (AuditBatcher.push_batch sinkOk now s).pushes =
      [s.queue.take (min s.queue.length s.batch_size)] := by
  cases sinkOk with
  | false => rw [push_batch_fail now s h]
  | true => rw [push_batch_ok now s h]

theorem add_events_single_push (sinkOk : Bool) (now t0 interval B : Nat) :
    ∀ (es q : List AuditEventM), es ≠ [] →
      q.length + es.length = B →
      now - t0 < interval →
      (AuditBatcher.add_events sinkOk now es (BatcherState.mk B interval q t0)).pushes =
        [q ++ es] := by
  intro es
  induction es with
  | nil => intro q hne _ _; exact absurd rfl hne
  | cons e es ih =>
    intro q _ hlen hint
    cases es with
    | nil =>
      have hlen2 : q.length + 1 = B := by simpa using hlen
      have htrig : (q ++ [e]).length ≥ B ∨
          now - t0 ≥ interval := by
        left
        simp [hlen2]
      rw [AuditBatcher.add_events, AuditBatcher.add_events]
      rw [AuditBatcher.add_event]
      rw [if_pos (by simpa using htrig)]
      have hne2 : (q ++ [e] : List AuditEventM) ≠ [] := by simp
      rw [push_batch_pushes sinkOk now _ hne2]
      simp [hlen2.symm]
    | cons e2 es2 =>
      have hlen2 : q.length + (es2.length + 2) = B := by
        simp at hlen
        omega
      have hlt : q.length + 1 < B := by omega
      have hnotrig : ¬ ((q ++ [e]).length ≥ B ∨ now - t0 ≥ interval) := by
        push_neg
        constructor
        · simpa using hlt
        · exact hint
      rw [AuditBatcher.add_events]
      rw [AuditBatcher.add_event]
      rw [if_neg (by simpa using hnotrig)]
      have := ih (q ++ [e]) (by simp) (by simp; omega) hint
      simp only [AuditStep.pushes] at this ⊢
      rw [this]
      simp

/-- C4: add_event appends the event and then attempts a push exactly
when the queue length has reached batch_size or the time since the last
successful push has reached the interval; the attempted batch is taken
from the queue head in insertion order; in particular B calls with
batch_size = B (and the interval trigger quiet) make exactly one push
covering all B events in insertion order. -/
theorem c4_add_event_batch_trigger (sinkOk : Bool) (now : Nat)
    (e : AuditEventM) (s : BatcherState) (es : List AuditEventM)
    (B interval t0 : Nat) (hB : 1 ≤ B) (hlen : es.length = B)
    (hint : now - t0 < interval) :
    ((AuditBatcher.add_event sinkOk now e s).pushes ≠ [] ↔
      (s.queue.length + 1 ≥ s.batch_size ∨
        now - s.last_push ≥ s.batch_interval)) ∧
    ((s.queue.length + 1 ≥ s.batch_size ∨
        now - s.last_push ≥ s.batch_interval) →
      (AuditBatcher.add_event sinkOk now e s).pushes =
        [(s.queue ++ [e]).take (min (s.queue.length + 1) s.batch_size)]) ∧
    (AuditBatcher.add_events sinkOk now es
      (BatcherState.mk B interval [] t0)).pushes = [es] := by
  have hbatch : (s.queue.length + 1 ≥ s.batch_size ∨
      now - s.last_push ≥ s.batch_interval) →
      (AuditBatcher.add_event sinkOk now e s).pushes =
        [(s.queue ++ [e]).take (min (s.queue.length + 1) s.batch_size)] := by
    intro htrig
    rw [AuditBatcher.add_event]
    rw [if_pos (by simpa using htrig)]
    have hne : (s.queue ++ [e] : List AuditEventM) ≠ [] := by simp
    rw [push_batch_pushes sinkOk now _ hne]
    simp
  refine ⟨⟨?_, ?_⟩, hbatch, ?_⟩
  · intro hne
    by_contra hno
    rw [AuditBatcher.add_event] at hne
    rw [if_neg (by simpa using hno)] at hne
    exact hne rfl
  · intro htrig
    rw [hbatch htrig]
    simp
  · have hne : es ≠ [] := by
      intro hnil
      rw [hnil] at hlen
      simp at hlen
      omega
    exact add_events_single_push sinkOk now t0 interval B es [] hne
      (by simpa using hlen) hint

/-- C4 witness: two add_event calls with batch size two trigger exactly
one push covering both events in insertion order. -/
theorem c4_witness :
    ((AuditBatcher.add_event true 5 auditE1 c4State).pushes ≠ [] ↔
      (c4State.queue.length + 1 ≥ c4State.batch_size ∨
        5 - c4State.last_push ≥ c4State.batch_interval)) ∧
    ((c4State.queue.length + 1 ≥ c4State.batch_size ∨
        5 - c4State.last_push ≥ c4State.batch_interval) →
      (AuditBatcher.add_event true 5 auditE1 c4State).pushes =
        [(c4State.queue ++ [auditE1]).take
          (min (c4State.queue.length + 1) c4State.batch_size)]) ∧
    (AuditBatcher.add_events true 5 [auditE1, auditE2]
      (BatcherState.mk 2 100 [] 0)).pushes = [[auditE1, auditE2]] :=
  c4_add_event_batch_trigger true 5 auditE1 c4State [auditE1, auditE2]
    2 100 0 (by decide) (by decide) (by decide)

/-! ## C5 -/

theorem disconnect_trace (d : Except PyErr Unit) (s : ServerState) :
    (MCPServer.disconnect d s).trace = [.transportDisconnect] := by
  cases d <;> rfl

theorem disconnect_tools (d : Except PyErr Unit) (s : ServerState) :
    (MCPServer.disconnect d s).state.tools = s.tools := by
  cases d <;> rfl

theorem disconnect_attempts (d : Except PyErr Unit) (s : ServerState) :
    (MCPServer.disconnect d s).state.reconnect_attempts =
      s.reconnect_attempts := by
  cases d <;> rfl

theorem disconnect_max (d : Except PyErr Unit) (s : ServerState) :
    (MCPServer.disconnect d s).state.max_reconnect_attempts =
      s.max_reconnect_attempts := by
  cases d <;> rfl

theorem connect_success (cenv : ConnectEnv) (s : ServerState)
    (cat : List MCPToolM) (h1 : cenv.connectOk = .ok ())
    (h2 : cenv.initResult = .ok ()) (h3 : cenv.toolsList = .ok cat) :
    MCPServer.connect cenv s =
      ⟨{ s with
          tools := cat.foldl (fun m t => dictInsert t.name t m) s.tools,
          connected := true, reconnect_attempts := 0 }, none,
        [.transportConnect, .sendReq "initialize", .sendReq "tools/list"]⟩ := by
  rw [MCPServer.connect, h1, h2, h3]

theorem sleep_not_mem_connect (cenv : ConnectEnv) (s : ServerState) (n : Nat) :
    MCPEffect.sleep n ∉ (MCPServer.connect cenv s).trace := by
  obtain ⟨co, ir, tl⟩ := cenv
  cases co <;> cases ir <;> cases tl <;> simp [MCPServer.connect]

theorem transportConnect_mem_connect (cenv : ConnectEnv) (s : ServerState) :
    MCPEffect.transportConnect ∈ (MCPServer.connect cenv s).trace := by
  obtain ⟨co, ir, tl⟩ := cenv
  cases co <;> cases ir <;> cases tl <;> simp [MCPServer.connect]

theorem connect_connected_irrelevant (cenv : ConnectEnv)
    (tools : List (String × MCPToolM)) (b1 b2 : Bool) (ra ma : Nat) :
    MCPServer.connect cenv (ServerState.mk tools b1 ra ma) =
      MCPServer.connect cenv (ServerState.mk tools b2 ra ma) := by
  obtain ⟨co, ir, tl⟩ := cenv
  cases co <;> cases ir <;> cases tl <;> rfl

theorem connect_fail_first (cenv : ConnectEnv) (st : ServerState) (m : PyErr)
    (hm : cenv.connectOk = .error m) :
    MCPServer.connect cenv st =
      ⟨{ st with connected := false }, some m, [.transportConnect]⟩ := by
  rw [MCPServer.connect, hm]

theorem reconnect_trace_eq (env : MCPServer.ReconnectEnv) (s : ServerState)
    (h : s.reconnect_attempts < s.max_reconnect_attempts) :
    (MCPServer.reconnect env s).trace =
      [.transportDisconnect, .sleep 1] ++
        (MCPServer.connect env.connectEnv
          (MCPServer.disconnect env.disconnectOk
            { s with reconnect_attempts := s.reconnect_attempts + 1 }).state).trace := by
  rw [MCPServer.reconnect, if_neg (by omega)]
  rw [disconnect_trace]
  rfl

/-- C5: the reconnection algorithm raises the ReconnectExhausted
failure and leaves the session state untouched (hence disconnected)
once the attempt counter has reached the configured maximum, whose
default is 3; below the maximum it increments the counter, disconnects
the stale transport ignoring disconnect errors, sleeps a fixed delay of
1 second (never any other duration), and re-runs connect, which
re-discovers the catalog; a successful connect sets connected and
resets the counter to 0. -/
theorem c5_reconnect_algorithm (env : MCPServer.ReconnectEnv)
    (s : ServerState) :
    initServer.max_reconnect_attempts = 3 ∧
    (s.reconnect_attempts ≥ s.max_reconnect_attempts →
      MCPServer.reconnect env s =
        ⟨s, some (.runtimeError "Failed to reconnect after max attempts"), []⟩) ∧
    (s.reconnect_attempts < s.max_reconnect_attempts →
      MCPEffect.transportDisconnect ∈ (MCPServer.reconnect env s).trace ∧
      MCPEffect.sleep 1 ∈ (MCPServer.reconnect env s).trace ∧
      (∀ n, n ≠ 1 → MCPEffect.sleep n ∉ (MCPServer.reconnect env s).trace) ∧
      MCPEffect.transportConnect ∈ (MCPServer.reconnect env s).trace) ∧
    (∀ x, MCPServer.reconnect ⟨.error x, env.connectEnv⟩ s =
      MCPServer.reconnect ⟨.ok (), env.connectEnv⟩ s) ∧
    (s.reconnect_attempts < s.max_reconnect_attempts →
      ∀ m, env.connectEnv.connectOk = .error m →
        (MCPServer.reconnect env s).state.reconnect_attempts =
          s.reconnect_attempts + 1 ∧
        (MCPServer.reconnect env s).state.connected = false ∧
        (MCPServer.reconnect env s).err = some m) ∧
    (∀ cat, env.connectEnv.connectOk = .ok () →
      env.connectEnv.initResult = .ok () →
      env.connectEnv.toolsList = .ok cat →
      s.reconnect_attempts < s.max_reconnect_attempts →
      (MCPServer.reconnect env s).err = none ∧
      (MCPServer.reconnect env s).state.connected = true ∧
      (MCPServer.reconnect env s).state.reconnect_attempts = 0 ∧
      MCPEffect.sendReq "tools/list" ∈ (MCPServer.reconnect env s).trace) ∧
    (∀ (cenv : ConnectEnv) (st : ServerState) (cat : List MCPToolM),
      cenv.connectOk = .ok () → cenv.initResult = .ok () →
      cenv.toolsList = .ok cat →
      (MCPServer.connect cenv st).state.reconnect_attempts = 0 ∧
      (MCPServer.connect cenv st).state.connected = true) := by
  refine ⟨rfl, ?_, ?_, ?_, ?_, ?_, ?_⟩
  · intro h1
    rw [MCPServer.reconnect, if_pos h1]
  · intro h2
    rw [reconnect_trace_eq env s h2]
    refine ⟨by simp, by simp, ?_, by simp [transportConnect_mem_connect]⟩
    intro n hn
    simp [hn, sleep_not_mem_connect]
  · intro x
    rw [MCPServer.reconnect, MCPServer.reconnect]
    by_cases h : s.reconnect_attempts ≥ s.max_reconnect_attempts
    · rw [if_pos h, if_pos h]
    · rw [if_neg h, if_neg h]
      simp only [MCPServer.disconnect]
      rw [connect_connected_irrelevant env.connectEnv s.tools s.connected false
        (s.reconnect_attempts + 1) s.max_reconnect_attempts]
  · intro h2 m hm
    rw [MCPServer.reconnect, if_neg (by omega)]
    rw [connect_fail_first env.connectEnv _ m hm]
    refine ⟨?_, rfl, rfl⟩
    have := disconnect_attempts env.disconnectOk
      { s with reconnect_attempts := s.reconnect_attempts + 1 }
    simpa using this
  · intro cat h1 h2 h3 h4
    rw [MCPServer.reconnect, if_neg (by omega)]
    rw [connect_success env.connectEnv _ cat h1 h2 h3]
    refine ⟨rfl, rfl, rfl, ?_⟩
    rw [disconnect_trace]
    simp
  · intro cenv st cat h1 h2 h3
    rw [connect_success cenv st cat h1 h2 h3]
    exact ⟨rfl, rfl⟩

/-- C5 witness: the theorem applied to an exhausted session, a session
with remaining budget, and a successful connect environment. -/
theorem c5_witness :
    (MCPServer.reconnect c5ReconnectEnv c5Exhausted =
      ⟨c5Exhausted,
        some (.runtimeError "Failed to reconnect after max attempts"), []⟩) ∧
    (MCPEffect.transportDisconnect ∈
        (MCPServer.reconnect c5ReconnectEnv c5Fresh).trace ∧
      MCPEffect.sleep 1 ∈ (MCPServer.reconnect c5ReconnectEnv c5Fresh).trace ∧
      (∀ n, n ≠ 1 →
        MCPEffect.sleep n ∉ (MCPServer.reconnect c5ReconnectEnv c5Fresh).trace) ∧
      MCPEffect.transportConnect ∈
        (MCPServer.reconnect c5ReconnectEnv c5Fresh).trace) ∧
    ((MCPServer.reconnect c5ReconnectEnv c5Fresh).err = none ∧
      (MCPServer.reconnect c5ReconnectEnv c5Fresh).state.connected = true ∧
      (MCPServer.reconnect c5ReconnectEnv c5Fresh).state.reconnect_attempts = 0 ∧
      MCPEffect.sendReq "tools/list" ∈
        (MCPServer.reconnect c5ReconnectEnv c5Fresh).trace) :=
  ⟨(c5_reconnect_algorithm c5ReconnectEnv c5Exhausted).2.1 (by decide),
    (c5_reconnect_algorithm c5ReconnectEnv c5Fresh).2.2.1 (by decide),
    (c5_reconnect_algorithm c5ReconnectEnv c5Fresh).2.2.2.2.2.1 [c5Tool]
      rfl rfl rfl (by decide)⟩

/-! ## C6 -/

/-- C6 counterexample: a well-formed response carrying an
application-level error is raised by the stdio transport as a
RuntimeError, which MCPServer.call_tool catches like a connection
loss: the session reconnects and retries the call (two tools/call
sends appear in the trace) instead of surfacing the protocol error
directly. -/
theorem c6_counterexample :
    stdio_send_request (.errLine "app failure") =
      .error (.runtimeError "MCP error: app failure") ∧
    (MCPServer.call_tool c6CallEnv "t" c6Server).result = .ok "retried" ∧
    (MCPServer.call_tool c6CallEnv "t" c6Server).trace =
      [.sendReq "tools/call", .transportDisconnect, .sleep 1,
        .transportConnect, .sendReq "initialize", .sendReq "tools/list",
        .sendReq "tools/call"] :=
  ⟨rfl, rfl, rfl⟩

/-- C6 amended: the retry filter of call_tool is the exception class
pair (ConnectionError, RuntimeError); since the transports raise
protocol-level errors as RuntimeError, such errors also trigger the
Connected to Reconnecting transition and the single retry; only errors
of other classes are surfaced directly without retry. -/
theorem c6_amended_runtime_error_retried (s : ServerState)
    (env : MCPServer.CallEnv) (name : String) (e : PyErr)
    (hin : dictContains name s.tools = true)
    (hfs : env.firstSend = .error e) :
    (caughtByCallToolRetry e = false →
      MCPServer.call_tool env name s =
        ⟨s, .error e, [.sendReq "tools/call"]⟩) ∧
    (caughtByCallToolRetry e = true →
      (MCPServer.reconnect env.reconnectEnv
          { s with connected := false }).err = none →
      (MCPServer.call_tool env name s).result = env.retrySend ∧
      (MCPServer.call_tool env name s).trace =
        [.sendReq "tools/call"] ++
          (MCPServer.reconnect env.reconnectEnv
            { s with connected := false }).trace ++
          [.sendReq "tools/call"]) ∧
    (∀ m, caughtByCallToolRetry (.runtimeError m) = true ∧
      stdio_send_request (.errLine m) =
        .error (.runtimeError ("MCP error: " ++ m))) := by
  refine ⟨?_, ?_, ?_⟩
  · intro hcaught
    simp [MCPServer.call_tool, hin, hfs, hcaught]
  · intro hcaught hrec
    simp [MCPServer.call_tool, hin, hfs, hcaught, hrec]
  · intro m
    exact ⟨rfl, rfl⟩

/-- C6 witness for the amended theorem: the concrete protocol-error run
reconnects and retries. -/
theorem c6_amended_witness :
    (MCPServer.call_tool c6CallEnv "t" c6Server).result =
      c6CallEnv.retrySend ∧
    (MCPServer.call_tool c6CallEnv "t" c6Server).trace =
      [.sendReq "tools/call"] ++
        (MCPServer.reconnect c6CallEnv.reconnectEnv
          { c6Server with connected := false }).trace ++
        [.sendReq "tools/call"] :=
  (c6_amended_runtime_error_retried c6Server c6CallEnv "t"
    (.runtimeError "MCP error: app failure") rfl rfl).2.1 rfl rfl

/-! ## C7 -/

/-- C7 counterexample: after a successful connect followed by a
successful disconnect, the session is not connected yet its tool map
still holds the previously discovered descriptor, violating the
claimed invariant that the map is empty whenever the session is not
Connected. -/
theorem c7_counterexample :
    c7S2.connected = false ∧ c7S2.tools ≠ [] :=
  ⟨rfl, by decide⟩

/-- C7 amended: the tool map is empty only before the first successful
connect; a successful connect sets connected; disconnect clears only
the connected flag and never the tool map, so a non-empty map can
persist while the session is not Connected. -/
theorem c7_amended_tools_not_cleared (d : Except PyErr Unit)
    (s : ServerState) (cenv : ConnectEnv) :
    (initServer.tools = [] ∧ initServer.connected = false) ∧
    (MCPServer.disconnect d s).state.tools = s.tools ∧
    (MCPServer.disconnect d s).err = none ∧
    (d = .ok () → (MCPServer.disconnect d s).state.connected = false) ∧
    ((MCPServer.connect cenv s).err = none →
      (MCPServer.connect cenv s).state.connected = true) := by
  refine ⟨⟨rfl, rfl⟩, disconnect_tools d s, ?_, ?_, ?_⟩
  · cases d <;> rfl
  · intro hd
    rw [hd]
    rfl
  · obtain ⟨co, ir, tl⟩ := cenv
    cases co <;> cases ir <;> cases tl <;> simp [MCPServer.connect]

/-- C7 witness for the amended theorem, evaluated on the concrete
connect / disconnect run. -/
theorem c7_amended_witness :
    (initServer.tools = [] ∧ initServer.connected = false) ∧
    (MCPServer.disconnect (.ok ()) c7S1).state.tools = c7S1.tools ∧
    (MCPServer.disconnect (.ok ()) c7S1).err = none ∧
    (MCPServer.disconnect (.ok ()) c7S1).state.connected = false ∧
    (MCPServer.connect ⟨.ok (), .ok (), .ok [c5Tool]⟩ c7S1).state.connected =
      true := by
  have h := c7_amended_tools_not_cleared (.ok ()) c7S1
    ⟨.ok (), .ok (), .ok [c5Tool]⟩
  exact ⟨h.1, h.2.1, h.2.2.1, h.2.2.2.1 rfl, h.2.2.2.2 rfl⟩

/-! ## C8 -/

/-- C8 counterexample: with an escalate decision carrying a truthy
event id, a raising explain call aborts the whole proposal (the task
raises, which the pipeline converts into an error result) and the
escalation handler decide step is never reached, contrary to the
claimed best-effort behaviour. -/
theorem c8_counterexample :
    (ToolExecutor.execute_tool_call c8Env c8Tc).1 = .error "explain down" ∧
    (∀ t, ExecEffect.effEscalate t ∉
      (ToolExecutor.execute_tool_call c8Env c8Tc).2) := by
  refine ⟨rfl, ?_⟩
  intro t ht
  have hx : (ToolExecutor.execute_tool_call c8Env c8Tc).2 =
      [.effPropose "esctool", .effExplain 1] := rfl
  rw [hx] at ht
  simp at ht

/-- C8 amended: the explanation fetch is guarded only by the truthiness
of the event id; when the event id is truthy and explain raises, the
exception propagates, the proposal aborts with that error, and the
escalation decide step is not reached; when the event id is falsy,
explain is skipped and the decide step runs directly. -/
theorem c8_amended_explain_failure_aborts (env : EngineEnv)
    (tc : ContentBlock) (d : Decision) (e : String)
    (hp : env.propose tc = .ok d) (ho : d.outcome = "escalate")
    (ha : d.allowed = true) :
    (d.event_id ≠ 0 → env.explain d.event_id = .error e →
      ToolExecutor.execute_tool_call env tc =
        (.error e, [.effPropose tc.tool_name, .effExplain d.event_id]) ∧
      (∀ t, ExecEffect.effEscalate t ∉
        (ToolExecutor.execute_tool_call env tc).2)) ∧
    (d.event_id = 0 →
      ToolExecutor.execute_tool_call env tc =
        ToolExecutor.escalateDecide env tc d none
          [.effPropose tc.tool_name]) := by
  have hbranch : ToolExecutor.execute_tool_call env tc =
      ToolExecutor.escalateStep env tc d [.effPropose tc.tool_name] := by
    simp [ToolExecutor.execute_tool_call, hp, ho, ha]
  refine ⟨?_, ?_⟩
  · intro hid he
    have hrun : ToolExecutor.execute_tool_call env tc =
        (.error e, [.effPropose tc.tool_name, .effExplain d.event_id]) := by
      rw [hbranch, ToolExecutor.escalateStep, if_pos hid, he]
      rfl
    refine ⟨hrun, ?_⟩
    intro t ht
    rw [hrun] at ht
    simp at ht
  · intro hid
    rw [hbranch, ToolExecutor.escalateStep, if_neg (by simp [hid])]

/-- C8 witness for the amended theorem: the concrete escalated proposal
whose explain call raises. -/
theorem c8_amended_witness :
    ToolExecutor.execute_tool_call c8Env c8Tc =
      (.error "explain down", [.effPropose c8Tc.tool_name,
        .effExplain (Decision.mk "escalate" "needs human" 1 true).event_id]) ∧
    (∀ t, ExecEffect.effEscalate t ∉
      (ToolExecutor.execute_tool_call c8Env c8Tc).2) :=
  (c8_amended_explain_failure_aborts c8Env c8Tc
      (Decision.mk "escalate" "needs human" 1 true) "explain down"
      rfl rfl rfl).1 (by decide) rfl

/-! ## C9 -/

/-- C9 counterexample: with two connected servers both exposing tool t,
a non-transport ValueError from the first candidate makes the routing
fall through and return the result of the second server, contrary to
the claim that fallthrough happens only for transport-level errors. -/
theorem c9_counterexample :
    MCPClient.call_tool "t" [c9ServerA, c9ServerB] = .ok "r2" ∧
    c9ServerA.callResult = .error (.valueError "parse failure") ∧
    isTransportLevel (.valueError "parse failure") = false :=
  ⟨rfl, rfl, rfl⟩

theorem client_call_tool_all_fail (name : String) :
    ∀ (servers : List ServerEntry),
      (∀ t ∈ servers, (t.toolNames.contains name && t.connected) = false ∨
        ∃ e2, t.callResult = .error e2) →
      MCPClient.call_tool name servers =
        .error (.valueError
          ("Tool " ++ name ++ " not found on any connected server")) := by
  intro servers
  induction servers with
  | nil => intro _; rfl
  | cons t ts ih =>
    intro hall
    have hrest := fun t2 ht2 => hall t2 (List.mem_cons_of_mem t ht2)
    rcases hall t (List.mem_cons_self t ts) with hf | ⟨e2, he2⟩
    · rw [MCPClient.call_tool, if_neg (by rw [hf]; exact Bool.false_ne_true)]
      exact ih hrest
    · by_cases hc : (t.toolNames.contains name && t.connected) = true
      · rw [MCPClient.call_tool, if_pos hc, he2]
        exact ih hrest
      · rw [MCPClient.call_tool, if_neg hc]
        exact ih hrest

/-- C9 amended: routing is first-match over connected sessions exposing
the name, but the fallthrough to the next candidate happens on any
failure of the chosen session, not only transport-level ones; when no
candidate succeeds, or none exists, the client raises the
ToolNotFound-equivalent ValueError. -/
theorem c9_amended_fallthrough_on_any_error (name : String)
    (s : ServerEntry) (rest : List ServerEntry) (r : String) (e : PyErr) :
    (MCPClient.call_tool name [] =
      .error (.valueError
        ("Tool " ++ name ++ " not found on any connected server"))) ∧
    ((s.toolNames.contains name && s.connected) = true →
      s.callResult = .ok r →
      MCPClient.call_tool name (s :: rest) = .ok r) ∧
    ((s.toolNames.contains name && s.connected) = true →
      s.callResult = .error e →
      MCPClient.call_tool name (s :: rest) = MCPClient.call_tool name rest) ∧
    ((s.toolNames.contains name && s.connected) = false →
      MCPClient.call_tool name (s :: rest) = MCPClient.call_tool name rest) ∧
    (∀ servers : List ServerEntry,
      (∀ t ∈ servers, (t.toolNames.contains name && t.connected) = false ∨
        ∃ e2, t.callResult = .error e2) →
      MCPClient.call_tool name servers =
        .error (.valueError
          ("Tool " ++ name ++ " not found on any connected server"))) := by
  refine ⟨rfl, ?_, ?_, ?_, client_call_tool_all_fail name⟩
  · intro hc hres
    rw [MCPClient.call_tool, if_pos hc, hres]
  · intro hc hres
    rw [MCPClient.call_tool, if_pos hc, hres]
  · intro hc
    rw [MCPClient.call_tool, if_neg (by rw [hc]; exact Bool.false_ne_true)]

/-- C9 witness for the amended theorem: the concrete two-server run
with a non-transport failure on the first candidate. -/
theorem c9_amended_witness :
    MCPClient.call_tool "t" [c9ServerA, c9ServerB] =
      MCPClient.call_tool "t" [c9ServerB] ∧
    MCPClient.call_tool "t" [c9ServerB] = .ok "r2" ∧
    MCPClient.call_tool "t" [] =
      .error (.valueError "Tool t not found on any connected server") := by
  have h1 := (c9_amended_fallthrough_on_any_error "t" c9ServerA [c9ServerB]
    "r2" (.valueError "parse failure")).2.2.1 rfl rfl
  have h2 := (c9_amended_fallthrough_on_any_error "t" c9ServerB []
    "r2" (.valueError "parse failure")).2.1 rfl rfl
  have h3 := (c9_amended_fallthrough_on_any_error "t" c9ServerA []
    "r2" (.valueError "parse failure")).1
  exact ⟨h1, h2, h3⟩

/-! ## C10 -/

/-- C10: the tool-presence check of call_tool runs only before the
first send: when the first send loses the connection and the reconnect
succeeds with a fresh catalog that lacks the requested tool, the retry
is still sent directly on the transport (a second tools/call send
appears) and the call returns the retry outcome, never a ToolNotFound
failure at that point. -/
theorem c10_retry_skips_tool_check (s : ServerState)
    (env : MCPServer.CallEnv) (name : String) (m : String)
    (cat : List MCPToolM)
    (hin : dictContains name s.tools = true)
    (hfs : env.firstSend = .error (.connectionError m))
    (hatt : s.reconnect_attempts < s.max_reconnect_attempts)
    (h1 : env.reconnectEnv.connectEnv.connectOk = .ok ())
    (h2 : env.reconnectEnv.connectEnv.initResult = .ok ())
    (h3 : env.reconnectEnv.connectEnv.toolsList = .ok cat)
    (habs : ∀ t ∈ cat, t.name ≠ name) :
    (MCPServer.call_tool env name s).result = env.retrySend ∧
    (MCPServer.call_tool env name s).trace =
      [.sendReq "tools/call"] ++
        (MCPServer.reconnect env.reconnectEnv
          { s with connected := false }).trace ++
        [.sendReq "tools/call"] ∧
    (∀ r, env.retrySend = .ok r →
      (MCPServer.call_tool env name s).result = .ok r) := by
  have hrec : (MCPServer.reconnect env.reconnectEnv
      { s with connected := false }).err = none := by
    rw [MCPServer.reconnect,
      if_neg (by simpa using Nat.not_le.mpr hatt)]
    rw [connect_success env.reconnectEnv.connectEnv _ cat h1 h2 h3]
  have hmain : (MCPServer.call_tool env name s).result = env.retrySend ∧
      (MCPServer.call_tool env name s).trace =
        [.sendReq "tools/call"] ++
          (MCPServer.reconnect env.reconnectEnv
            { s with connected := false }).trace ++
          [.sendReq "tools/call"] := by
    simp [MCPServer.call_tool, hin, hfs, hrec, caughtByCallToolRetry]
  exact ⟨hmain.1, hmain.2, fun r hr => by rw [hmain.1, hr]⟩

/-- C10 witness: the concrete connection-loss run whose fresh catalog
lacks the requested tool still issues the retry and returns its
result. -/
theorem c10_witness :
    (MCPServer.call_tool c10CallEnv "t" c10Server).result =
      c10CallEnv.retrySend ∧
    (MCPServer.call_tool c10CallEnv "t" c10Server).trace =
      [.sendReq "tools/call"] ++
        (MCPServer.reconnect c10CallEnv.reconnectEnv
          { c10Server with connected := false }).trace ++
        [.sendReq "tools/call"] ∧
    (∀ r, c10CallEnv.retrySend = .ok r →
      (MCPServer.call_tool c10CallEnv "t" c10Server).result = .ok r) :=
  c10_retry_skips_tool_check c10Server c10CallEnv "t" "pipe closed"
    [c10Other] rfl rfl (by decide) rfl rfl rfl
    (by intro t ht; simp [c10Other] at ht; subst ht; decide)
